import Mathlib

/-!
Shallow embedding of the trip-generation background-job pipeline of the
alpaca-vscode backend (Python/FastAPI), covering:

- the job record and its persistence helpers
  (backend/services/trip_generation_job_service.py),
- the error classifier and the scheduler's timeout / generic-error /
  ValueError handling (backend/routes/trip_generation.py),
- the fan-out packing-list generation (backend/services/llm_service.py),
- the five-step generation workflow with weather fallback, persistence and
  metrics recording (backend/services/trip_generation_service.py), and
- avatar assignment (backend/services/avatar_service.py).

The MongoDB collection of jobs is modelled as a list of job records;
`find_one` returns the first record with the given id and `update_one`
updates the first record with the given id, matching the driver's
single-document semantics.  Timestamps are integers (seconds); collaborator
calls (weather, per-traveler generator, trip insert, metrics insert) are
passed in as `Except`-valued arguments so that one run of the workflow is a
pure function of the collaborators' outcomes.
-/

namespace Alpaca

/-- Job status, `Literal["pending", "processing", "completed", "failed"]`
in backend/models/trip_generation_job.py. -/
inductive JobStatus
  | pending
  | processing
  | completed
  | failed
deriving DecidableEq

/-- Error kind, `Literal["timeout", "validation", "api_error", "transient",
"unknown"]` in backend/models/trip_generation_job.py. -/
inductive ErrorType
  | timeout
  | validation
  | api_error
  | transient
  | unknown
deriving DecidableEq

/-- The `TripGenerationJob` pydantic model (trip_data is opaque to the
pipeline and omitted; timestamps are integer seconds). -/
structure TripGenerationJob where
  id : String
  user_id : String
  status : JobStatus := JobStatus.pending
  trip_id : Option String := none
  error_message : Option String := none
  error_type : Option ErrorType := none
  retry_count : Nat := 0
  max_retries : Nat := 2
  started_at : Option Int := none
  completed_at : Option Int := none
  created_at : Int := 0
  updated_at : Int := 0
deriving DecidableEq

/-- The `trip_generation_jobs` collection: a list of job documents. -/
abbrev JobStore := List TripGenerationJob

/-- Configured hard per-attempt timeout (config.py: 180). -/
def trip_generation_timeout_seconds : Int := 180

/-- Configured slow-job warning threshold (config.py: 60). -/
def trip_generation_warning_threshold_seconds : Int := 60

/-- Configured cleanup loop period (config.py: 300). -/
def job_cleanup_interval_seconds : Int := 300

/-- Configured max age of terminal jobs, in hours (config.py: 1). -/
def job_max_age_hours : Int := 1

/-- Configured retry budget (config.py: 2). -/
def job_max_retries : Nat := 2

/-- `collection.find_one({"id": job_id})`: first document with this id. -/
def find_one (store : JobStore) (job_id : String) : Option TripGenerationJob :=
  store.find? (fun j => j.id == job_id)

/-- `collection.update_one({"id": job_id}, {"$set": ...})`: rewrite the
first document with this id, leave the rest unchanged. -/
def update_one (store : JobStore) (job_id : String)
    (f : TripGenerationJob → TripGenerationJob) : JobStore :=
  match store with
  | [] => []
  | j :: rest =>
    if j.id == job_id then f j :: rest else j :: update_one rest job_id f

/-- `TripGenerationJobService.get_job`. -/
def get_job (store : JobStore) (job_id : String) : Option TripGenerationJob :=
  find_one store job_id

/-- `TripGenerationJobService.mark_processing`: status=processing,
started_at=now (and `_update_job` stamps updated_at). -/
def mark_processing (store : JobStore) (job_id : String) (now : Int) : JobStore :=
  update_one store job_id (fun j =>
    { j with status := JobStatus.processing, started_at := some now, updated_at := now })

/-- `TripGenerationJobService.mark_completed`: status=completed, trip_id,
completed_at=now. -/
def mark_completed (store : JobStore) (job_id : String) (trip_id : String)
    (now : Int) : JobStore :=
  update_one store job_id (fun j =>
    { j with status := JobStatus.completed, trip_id := some trip_id,
             completed_at := some now, updated_at := now })

/-- `TripGenerationJobService.mark_failed`: status=failed, error context,
completed_at=now. -/
def mark_failed (store : JobStore) (job_id : String) (error_message : String)
    (error_type : ErrorType) (now : Int) : JobStore :=
  update_one store job_id (fun j =>
    { j with status := JobStatus.failed, error_message := some error_message,
             error_type := some error_type, completed_at := some now,
             updated_at := now })

/-- `TripGenerationJobService.should_retry`: false when the job is absent;
false when its stored error kind is validation; otherwise
`retry_count < max_retries`. -/
def should_retry (store : JobStore) (job_id : String) : Bool :=
  match get_job store job_id with
  | none => false
  | some job =>
    if job.error_type == some ErrorType.validation then false
    else job.retry_count < job.max_retries

/-- `TripGenerationJobService.increment_retry`: no-op when the job is
absent; otherwise status=pending, retry_count+1, started_at and error
context cleared. -/
def increment_retry (store : JobStore) (job_id : String) (now : Int) : JobStore :=
  match get_job store job_id with
  | none => store
  | some job =>
    update_one store job_id (fun j =>
      { j with status := JobStatus.pending, retry_count := job.retry_count + 1,
               started_at := none, error_message := none, error_type := none,
               updated_at := now })

/-- Cutoff used by `cleanup_old_jobs`:
`datetime.utcnow() - timedelta(hours=settings.job_max_age_hours)`. -/
def cleanup_cutoff (now : Int) : Int := now - job_max_age_hours * 3600

/-- The `delete_many` filter of `cleanup_old_jobs`: created before the
cutoff AND status in {completed, failed}. -/
def cleanup_pred (now : Int) (j : TripGenerationJob) : Bool :=
  decide (j.created_at < cleanup_cutoff now) &&
    (j.status == JobStatus.completed || j.status == JobStatus.failed)

/-- `TripGenerationJobService.cleanup_old_jobs`: delete every document
matching `cleanup_pred`, return the surviving store and the deleted
count. -/
def cleanup_old_jobs (store : JobStore) (now : Int) : JobStore × Nat :=
  ((store.filter fun j => !(cleanup_pred now j)),
   (store.filter (cleanup_pred now)).length)

/-- Cutoff used by `get_stuck_jobs`:
`datetime.utcnow() - timedelta(seconds=settings.trip_generation_timeout_seconds)`. -/
def stuck_cutoff (now : Int) : Int := now - trip_generation_timeout_seconds

/-- The `find` filter of `get_stuck_jobs`: status == processing AND
started_at < cutoff (a missing started_at does not match the range
query). -/
def stuck_pred (now : Int) (j : TripGenerationJob) : Bool :=
  j.status == JobStatus.processing &&
    (match j.started_at with
     | some t => decide (t < stuck_cutoff now)
     | none => false)

/-- `TripGenerationJobService.get_stuck_jobs`: the matching documents, as
returned by `cursor.to_list(length=100)` — at most the first 100. -/
def get_stuck_jobs (store : JobStore) (now : Int) : List TripGenerationJob :=
  (store.filter (stuck_pred now)).take 100

/-- Python's `str.lower()`: lower-case every character (the keyword
matching below only involves basic latin letters). -/
def py_lower (s : String) : String := String.mk (s.data.map Char.toLower)

/-- Python's `str.strip()`: drop whitespace from both ends. -/
def py_strip (s : String) : String :=
  String.mk
    (((s.data.dropWhile Char.isWhitespace).reverse.dropWhile
      Char.isWhitespace).reverse)

/-- `d in s` on lists of characters: does the needle occur as a
contiguous run at the head? -/
def startsWithChars : List Char → List Char → Bool
  | _, [] => true
  | [], _ :: _ => false
  | c :: cs, d :: ds => c == d && startsWithChars cs ds

/-- `needle in haystack` on lists of characters. -/
def containsChars (needle : List Char) : List Char → Bool
  | [] => startsWithChars [] needle
  | c :: cs => startsWithChars (c :: cs) needle || containsChars needle cs

/-- Python's `needle in haystack` on strings. -/
def contains_substr (haystack needle : String) : Bool :=
  containsChars needle.data haystack.data

/-- `_classify_error` (routes/trip_generation.py): lower-case the message
and test keyword groups in order — transient, then api_error, then
validation, else unknown. -/
def classify_error (error_str : String) : ErrorType :=
  let s := py_lower error_str
  if ["timeout", "connection", "network", "temporary"].any
      (fun k => contains_substr s k) then
    ErrorType.transient
  else if ["api", "rate limit", "quota"].any (fun k => contains_substr s k) then
    ErrorType.api_error
  else if ["validation", "invalid", "required"].any
      (fun k => contains_substr s k) then
    ErrorType.validation
  else
    ErrorType.unknown

/-- The message used by the timeout handler's `mark_failed` call. -/
def timeout_error_message : String :=
  "Job timed out after " ++ toString trip_generation_timeout_seconds ++ " seconds"

/-- Observable outcome of one scheduler failure-handling pass on a job:
either the job was re-queued for retry (with the computed backoff sleep,
followed by a re-dispatch), or the retry branch ran but the job had
vanished after `increment_retry` (no backoff, no re-dispatch, no
`mark_failed`), or the job was marked failed. -/
inductive SchedulerAction
  | retried (newStore : JobStore) (backoff_seconds : Nat)
  | redispatch_skipped (newStore : JobStore)
  | marked_failed (newStore : JobStore) (error_message : String)
      (error_type : ErrorType)

/-- The store after the action. -/
def SchedulerAction.resultStore : SchedulerAction → JobStore
  | SchedulerAction.retried s _ => s
  | SchedulerAction.redispatch_skipped s => s
  | SchedulerAction.marked_failed s _ _ => s

/-- Did the action take the retry path (increment + backoff +
re-dispatch)? -/
def SchedulerAction.isRetry : SchedulerAction → Bool
  | SchedulerAction.retried _ _ => true
  | _ => false

/-- The `except asyncio.TimeoutError` branch of
`process_trip_generation_job_with_timeout`: consult `should_retry`; if
retryable, `increment_retry`, read the job back, sleep
`2 ** job.retry_count` and re-dispatch; otherwise `mark_failed` with kind
timeout. -/
def handle_timeout (store : JobStore) (job_id : String) (now : Int) :
    SchedulerAction :=
  if should_retry store job_id then
    match get_job (increment_retry store job_id now) job_id with
    | some job =>
      SchedulerAction.retried (increment_retry store job_id now)
        (2 ^ job.retry_count)
    | none =>
      SchedulerAction.redispatch_skipped (increment_retry store job_id now)
  else
    SchedulerAction.marked_failed
      (mark_failed store job_id timeout_error_message ErrorType.timeout now)
      timeout_error_message ErrorType.timeout

/-- The `except Exception` branch of `process_trip_generation_job`:
classify the error; when the kind is transient AND `should_retry` holds,
take the retry path (increment, read back, backoff `2 ** retry_count`,
re-dispatch) and return; in every other case `mark_failed` with the
classified kind. -/
def handle_generic_error (store : JobStore) (job_id : String)
    (error_msg : String) (now : Int) : SchedulerAction :=
  if classify_error error_msg == ErrorType.transient &&
      should_retry store job_id then
    match get_job (increment_retry store job_id now) job_id with
    | some job =>
      SchedulerAction.retried (increment_retry store job_id now)
        (2 ^ job.retry_count)
    | none =>
      SchedulerAction.redispatch_skipped (increment_retry store job_id now)
  else
    SchedulerAction.marked_failed
      (mark_failed store job_id error_msg (classify_error error_msg) now)
      error_msg (classify_error error_msg)

/-- The `except ValueError` branch of `process_trip_generation_job`:
`mark_failed` directly with kind validation, never consulting the retry
policy. -/
def handle_value_error (store : JobStore) (job_id : String)
    (err_str : String) (now : Int) : JobStore :=
  mark_failed store job_id ("Validation error: " ++ err_str)
    ErrorType.validation now

/-- `Literal["adult", "child", "infant"]` (models/trip.py TravelerBase). -/
inductive TravelerType
  | adult
  | child
  | infant
deriving DecidableEq

/-- The string value of the literal. -/
def TravelerType.str : TravelerType → String
  | TravelerType.adult => "adult"
  | TravelerType.child => "child"
  | TravelerType.infant => "infant"

/-- `TravelerBase` (models/trip.py): name, age, type, optional avatar.
Ages are integers (Python int). -/
structure Traveler where
  name : String
  age : Int
  type : TravelerType
  avatar : Option String := none
deriving DecidableEq

/-- `TravelerInDB`: a traveler plus its assigned id. -/
structure TravelerInDB where
  id : String
  name : String
  age : Int
  type : TravelerType
  avatar : Option String := none
deriving DecidableEq

/-- Avatar constants of `AvatarService`. -/
def INFANT_AVATAR : String := "👶"

def CHILD_FEMALE_AVATAR : String := "👧"

def CHILD_MALE_AVATAR : String := "👦"

def TEEN_FEMALE_AVATAR : String := "👩"

def TEEN_MALE_AVATAR : String := "👨"

def ADULT_FEMALE_AVATAR : String := "👩"

def ADULT_MALE_AVATAR : String := "👨"

def DEFAULT_AVATAR : String := "🧑"

/-- `AvatarService.assign_avatar` over the traveler dict it receives:
age, optional gender, optional type string.  An empty gender or type
string is falsy in Python and treated as absent. -/
def assign_avatar (age : Int) (gender : Option String)
    (traveler_type : Option String) : String :=
  let g : Option String :=
    match gender with
    | none => none
    | some s => if s == "" then none else some (py_lower s)
  let t : Option String :=
    match traveler_type with
    | none => none
    | some s => if s == "" then none else some (py_lower s)
  if age ≤ 2 || t == some "infant" then INFANT_AVATAR
  else if (3 ≤ age && age ≤ 12) || t == some "child" then
    if g == some "female" then CHILD_FEMALE_AVATAR
    else if g == some "male" then CHILD_MALE_AVATAR
    else DEFAULT_AVATAR
  else if 13 ≤ age && age ≤ 17 then
    if g == some "female" then TEEN_FEMALE_AVATAR
    else if g == some "male" then TEEN_MALE_AVATAR
    else DEFAULT_AVATAR
  else if 18 ≤ age || t == some "adult" then
    if g == some "female" then ADULT_FEMALE_AVATAR
    else if g == some "male" then ADULT_MALE_AVATAR
    else DEFAULT_AVATAR
  else DEFAULT_AVATAR

/-- `TripCreate` (models/trip.py): destination, ISO date strings,
activities, transport, travelers. -/
structure TripCreate where
  destination : String
  start_date : String
  end_date : String
  activities : List String := []
  transport : List String := []
  travelers : List Traveler
deriving DecidableEq

/-- The US state/territory names list of trip_generation_service.py. -/
def US_LOCATIONS : List String :=
  ["alabama", "alaska", "arizona", "arkansas", "california", "colorado",
   "connecticut", "delaware", "florida", "georgia", "hawaii", "idaho",
   "illinois", "indiana", "iowa", "kansas", "kentucky", "louisiana",
   "maine", "maryland", "massachusetts", "michigan", "minnesota",
   "mississippi", "missouri", "montana", "nebraska", "nevada",
   "new hampshire", "new jersey", "new mexico", "new york",
   "north carolina", "north dakota", "ohio", "oklahoma", "oregon",
   "pennsylvania", "rhode island", "south carolina", "south dakota",
   "tennessee", "texas", "utah", "vermont", "virginia", "washington",
   "west virginia", "wisconsin", "wyoming", "puerto rico", "guam",
   "us virgin islands", "american samoa", "northern mariana islands",
   "united states", "usa", "u.s.", "u.s.a."]

/-- `TripGenerationService._infer_transport`: keep a non-empty transport
list; otherwise ["unknown"] for a US destination, ["flying"] for an
international one. -/
def infer_transport (destination : String) (transport : List String) :
    List String :=
  if transport.length > 0 then transport
  else if US_LOCATIONS.any (fun loc => contains_substr (py_lower destination) loc)
  then ["unknown"]
  else ["flying"]

/-- Child display-name formatting at the top of
`LLMService.generate_packing_lists`: a generic or blank name becomes
"Infant (age)" below age 2, "Child (age)" otherwise. -/
def format_traveler (t : TravelerInDB) : TravelerInDB :=
  if ["child", "kid", "baby", "toddler", ""].contains (py_lower t.name)
      || py_strip t.name == "" then
    if t.age < 2 then { t with name := "Infant (" ++ toString t.age ++ ")" }
    else { t with name := "Child (" ++ toString t.age ++ ")" }
  else t

/-- The primary packer: the id of the first adult among the formatted
travelers, if any. -/
def primary_packer_id (ts : List TravelerInDB) : Option String :=
  (ts.find? (fun t => t.type == TravelerType.adult)).map (fun t => t.id)

/-- One per-traveler failure message,
`f"Failed to generate list for {travelers[idx].name}: {str(result)}"`
(note: the ORIGINAL traveler list's name, not the formatted one). -/
def per_traveler_error_message (orig_name err : String) : String :=
  "Failed to generate list for " ++ orig_name ++ ": " ++ err

/-- The all-travelers-failed aggregate message. -/
def all_failed_message (errors : List String) : String :=
  "Failed to generate any packing lists. Errors: " ++
    String.intercalate "; " errors

/-- The outer `except` of `generate_packing_lists` re-wraps any raised
error. -/
def wrap_failure_message (e : String) : String :=
  "Failed to generate packing lists: " ++ e

/-- The per-traveler task results, in traveler order, as
`asyncio.gather(*tasks, return_exceptions=True)` returns them: the
generator collaborator `gen` is called once per formatted traveler with
its is_primary flag, and exceptions are captured in place rather than
short-circuiting the join.  `PL` is the opaque per-traveler artifact
(`PackingListForPerson`). -/
def fanout_results {PL : Type} (travelers : List TravelerInDB)
    (gen : TravelerInDB → Bool → Except String PL) : List (Except String PL) :=
  let formatted := travelers.map format_traveler
  let primary := primary_packer_id formatted
  formatted.map (fun t => gen t (primary == some t.id))

/-- The successful results collected from the joined tasks, in order. -/
def fanout_successes {PL : Type} (results : List (Except String PL)) :
    List PL :=
  results.filterMap (fun r =>
    match r with
    | Except.ok pl => some pl
    | Except.error _ => none)

/-- The failure messages collected from the joined tasks, in order, each
formatted with the original traveler's name. -/
def fanout_errors {PL : Type} (travelers : List TravelerInDB)
    (results : List (Except String PL)) : List String :=
  (results.zip travelers).filterMap (fun p =>
    match p.1 with
    | Except.error e => some (per_traveler_error_message p.2.name e)
    | Except.ok _ => none)

/-- `LLMService.generate_packing_lists`: run all per-traveler tasks,
collect successes and failure messages; if no task succeeded raise the
aggregate error (re-wrapped by the outer except), else return the
successes and only log the failures. -/
def generate_packing_lists {PL : Type} (travelers : List TravelerInDB)
    (gen : TravelerInDB → Bool → Except String PL) :
    Except String (List PL) :=
  if (fanout_successes (fanout_results travelers gen)).isEmpty then
    Except.error (wrap_failure_message (all_failed_message
      (fanout_errors travelers (fanout_results travelers gen))))
  else
    Except.ok (fanout_successes (fanout_results travelers gen))

/-- Traveler preparation (Step 2 of `TripGenerationService.generate_trip`):
give the traveler a fresh id and, when no (non-empty) avatar is supplied,
delegate to `AvatarService.assign_avatar` with the traveler's age, its
(absent) gender and its type string. -/
def prepare_traveler (fresh_id : String) (t : Traveler) : TravelerInDB :=
  let avatar : String :=
    match t.avatar with
    | none => assign_avatar t.age none (some t.type.str)
    | some a =>
      if a == "" then assign_avatar t.age none (some t.type.str) else a
  { id := fresh_id, name := t.name, age := t.age, type := t.type,
    avatar := some avatar }

/-- All travelers prepared in order; `fresh_ids i` is the ObjectId drawn
for the i-th traveler. -/
def prepare_travelers (trip_data : TripCreate) (fresh_ids : Nat → String) :
    List TravelerInDB :=
  trip_data.travelers.enum.map (fun p => prepare_traveler (fresh_ids p.1) p.2)

/-- `TripInDB` as persisted by the workflow.  `W` is the opaque weather
artifact (`WeatherInfo`, which carries floats) and `PL` the opaque
per-traveler packing-list artifact. -/
structure TripRecord (W PL : Type) where
  id : String
  user_id : String
  destination : String
  start_date : String
  end_date : String
  activities : List String
  transport : List String
  travelers : List TravelerInDB
  weather_data : Option W
  packing_lists : List PL
  created_at : Int
  updated_at : Int

/-- Observable outcome of one run of `generate_trip`: the returned trip or
the re-raised error, together with the trips inserted into the `trips`
collection during the run. -/
structure GenTripRun (W PL : Type) where
  result : Except String (TripRecord W PL)
  persisted_trips : List (TripRecord W PL)

/-- `TripGenerationService.generate_trip`, as a pure function of the
collaborators' outcomes for this run: `weather_result` is the weather
fetch, `gen` the per-traveler generator, `insert_trip` the trips-insert,
`record_success_metric` / `record_failure_metric` the two possible
metrics inserts a run can attempt.  The weather step tolerates failure
with a null weather value; a fan-out or insert failure triggers a
best-effort failure metric (whose own failure is swallowed by
`except Exception: pass`) and is re-raised; a failure of the
success-path metrics insert falls into the same outer handler and is
re-raised after the trip was already persisted. -/
def generate_trip {W PL : Type} (user_id : String) (trip_data : TripCreate)
    (weather_result : Except String W)
    (gen : TravelerInDB → Bool → Except String PL)
    (insert_trip : Except String Unit)
    (record_success_metric : Except String Unit)
    (record_failure_metric : Except String Unit)
    (fresh_ids : Nat → String) (trip_oid : String) (now : Int) :
    GenTripRun W PL :=
  let inferred_transport :=
    infer_transport trip_data.destination trip_data.transport
  -- Step 1: weather fetch; `except ... weather_data = None` on failure
  let weather_data : Option W :=
    match weather_result with
    | Except.ok w => some w
    | Except.error _ => none
  -- Step 2: traveler preparation
  let travelers_db := prepare_travelers trip_data fresh_ids
  -- Step 3: fan-out generation
  match generate_packing_lists travelers_db gen with
  | Except.error e =>
    match record_failure_metric with
    | Except.ok _ => { result := Except.error e, persisted_trips := [] }
    | Except.error _ => { result := Except.error e, persisted_trips := [] }
  | Except.ok packing_lists =>
    -- Step 4: persist trip
    let trip : TripRecord W PL :=
      { id := trip_oid, user_id := user_id,
        destination := trip_data.destination,
        start_date := trip_data.start_date, end_date := trip_data.end_date,
        activities := trip_data.activities, transport := inferred_transport,
        travelers := travelers_db, weather_data := weather_data,
        packing_lists := packing_lists, created_at := now, updated_at := now }
    match insert_trip with
    | Except.error ie =>
      match record_failure_metric with
      | Except.ok _ => { result := Except.error ie, persisted_trips := [] }
      | Except.error _ => { result := Except.error ie, persisted_trips := [] }
    | Except.ok _ =>
      -- Step 5: metrics (success); a failure here is caught by the outer
      -- handler, which records a best-effort failure metric and re-raises
      match record_success_metric with
      | Except.ok _ => { result := Except.ok trip, persisted_trips := [trip] }
      | Except.error me =>
        match record_failure_metric with
        | Except.ok _ => { result := Except.error me, persisted_trips := [trip] }
        | Except.error _ => { result := Except.error me, persisted_trips := [trip] }

/-- `TripGenerationJobService.create_job`: insert a fresh pydantic-default
job document (status pending, retry_count 0, max_retries 2). -/
def create_job (store : JobStore) (job_id user_id : String) (now : Int) :
    JobStore :=
  store ++ [{ id := job_id, user_id := user_id, created_at := now,
              updated_at := now }]

/-- The store transitions one scheduler-driven attempt cycle can apply to
the jobs collection, as wired in routes/trip_generation.py: enqueue,
dispatch (`mark_processing`), successful completion, the ValueError
branch, the timeout branch and the generic-exception branch. -/
inductive JobStep (job_id : String) : JobStore → JobStore → Prop
  | created (s : JobStore) (new_id user_id : String) (now : Int) :
      JobStep job_id s (create_job s new_id user_id now)
  | processing (s : JobStore) (now : Int) :
      JobStep job_id s (mark_processing s job_id now)
  | completed (s : JobStore) (trip_id : String) (now : Int) :
      JobStep job_id s (mark_completed s job_id trip_id now)
  | value_error (s : JobStore) (msg : String) (now : Int) :
      JobStep job_id s (handle_value_error s job_id msg now)
  | timed_out (s : JobStore) (now : Int) :
      JobStep job_id s ((handle_timeout s job_id now).resultStore)
  | generic_error (s : JobStore) (msg : String) (now : Int) :
      JobStep job_id s ((handle_generic_error s job_id msg now).resultStore)

theorem id_of_get_job (s : JobStore) (job_id : String) (j : TripGenerationJob)
    (h : get_job s job_id = some j) : j.id = job_id := by
  simp only [get_job, find_one] at h
  have := List.find?_some h
  simpa using this

theorem get_job_update_one (s : JobStore) (job_id : String)
    (f : TripGenerationJob → TripGenerationJob) (hf : ∀ j, (f j).id = j.id) :
    get_job (update_one s job_id f) job_id = (get_job s job_id).map f := by
  induction s with
  | nil => rfl
  | cons j rest ih =>
    simp only [get_job, find_one] at ih ⊢
    cases hb : (j.id == job_id) with
    | true =>
      simp only [update_one, hb, if_true]
      rw [List.find?_cons_of_pos (p := fun x => x.id == job_id) rest
            (by simpa [hf j] using hb),
          List.find?_cons_of_pos (p := fun x => x.id == job_id) rest hb]
      rfl
    | false =>
      simp only [update_one, hb, Bool.false_eq_true, if_false]
      rw [List.find?_cons_of_neg (p := fun x => x.id == job_id)
            (update_one rest job_id f) (by simp [hb]),
          List.find?_cons_of_neg (p := fun x => x.id == job_id) rest
            (by simp [hb])]
      exact ih

theorem get_job_mark_processing (s : JobStore) (job_id : String) (now : Int) :
    get_job (mark_processing s job_id now) job_id =
      (get_job s job_id).map (fun j =>
        { j with status := JobStatus.processing, started_at := some now,
                 updated_at := now }) :=
  get_job_update_one s job_id _ (fun _ => rfl)

theorem get_job_mark_completed (s : JobStore) (job_id trip_id : String)
    (now : Int) :
    get_job (mark_completed s job_id trip_id now) job_id =
      (get_job s job_id).map (fun j =>
        { j with status := JobStatus.completed, trip_id := some trip_id,
                 completed_at := some now, updated_at := now }) :=
  get_job_update_one s job_id _ (fun _ => rfl)

theorem get_job_mark_failed (s : JobStore) (job_id msg : String)
    (et : ErrorType) (now : Int) :
    get_job (mark_failed s job_id msg et now) job_id =
      (get_job s job_id).map (fun j =>
        { j with status := JobStatus.failed, error_message := some msg,
                 error_type := some et, completed_at := some now,
                 updated_at := now }) :=
  get_job_update_one s job_id _ (fun _ => rfl)

theorem get_job_create_job (s : JobStore) (job_id new_id user_id : String)
    (now : Int) (j : TripGenerationJob) (h : get_job s job_id = some j) :
    get_job (create_job s new_id user_id now) job_id = some j := by
  simp only [get_job, find_one, create_job] at h ⊢
  rw [List.find?_append, h]
  rfl

theorem increment_retry_of_none (s : JobStore) (job_id : String) (now : Int)
    (h : get_job s job_id = none) : increment_retry s job_id now = s := by
  unfold increment_retry
  rw [h]

theorem should_retry_of_none (s : JobStore) (job_id : String)
    (h : get_job s job_id = none) : should_retry s job_id = false := by
  unfold should_retry
  rw [h]

theorem get_job_increment_retry (s : JobStore) (job_id : String) (now : Int)
    (job : TripGenerationJob) (h : get_job s job_id = some job) :
    get_job (increment_retry s job_id now) job_id =
      some { job with
             status := JobStatus.pending,
             retry_count := job.retry_count + 1, started_at := none,
             error_message := none, error_type := none, updated_at := now } := by
  have hst : increment_retry s job_id now =
      update_one s job_id (fun j =>
        { j with
          status := JobStatus.pending, retry_count := job.retry_count + 1,
          started_at := none, error_message := none, error_type := none,
          updated_at := now }) := by
    unfold increment_retry
    rw [h]
  rw [hst,
      get_job_update_one s job_id
        (fun j =>
          { j with
            status := JobStatus.pending, retry_count := job.retry_count + 1,
            started_at := none, error_message := none, error_type := none,
            updated_at := now })
        (fun _ => rfl),
      h]
  rfl

theorem retry_count_lt_of_should_retry (s : JobStore) (job_id : String)
    (job : TripGenerationJob) (h : get_job s job_id = some job)
    (hr : should_retry s job_id = true) :
    job.retry_count < job.max_retries := by
  unfold should_retry at hr
  rw [h] at hr
  by_cases hv : (job.error_type == some ErrorType.validation) = true
  · simp [hv] at hr
  · simp only [hv, if_false] at hr
    exact of_decide_eq_true hr

theorem should_retry_false_of_exhausted (s : JobStore) (job_id : String)
    (job : TripGenerationJob) (h : get_job s job_id = some job)
    (hmax : job.max_retries ≤ job.retry_count) :
    should_retry s job_id = false := by
  unfold should_retry
  rw [h]
  by_cases hv : (job.error_type == some ErrorType.validation) = true
  · simp [hv]
  · simp only [hv, if_false]
    simpa using Nat.not_lt.mpr hmax

theorem handle_timeout_resultStore (s : JobStore) (job_id : String)
    (now : Int) :
    (handle_timeout s job_id now).resultStore =
      if should_retry s job_id then increment_retry s job_id now
      else mark_failed s job_id timeout_error_message ErrorType.timeout now := by
  unfold handle_timeout
  cases h : should_retry s job_id
  · simp [h, SchedulerAction.resultStore]
  · simp only [h, if_true]
    cases hg : get_job (increment_retry s job_id now) job_id <;>
      simp [SchedulerAction.resultStore]

theorem handle_generic_error_resultStore (s : JobStore) (job_id msg : String)
    (now : Int) :
    (handle_generic_error s job_id msg now).resultStore =
      if classify_error msg == ErrorType.transient && should_retry s job_id
      then increment_retry s job_id now
      else mark_failed s job_id msg (classify_error msg) now := by
  unfold handle_generic_error
  cases h : classify_error msg == ErrorType.transient && should_retry s job_id
  · simp [h, SchedulerAction.resultStore]
  · simp only [h, if_true]
    cases hg : get_job (increment_retry s job_id now) job_id <;>
      simp [SchedulerAction.resultStore]

theorem filter_length_partition {α : Type} (p : α → Bool) (l : List α) :
    (l.filter (fun a => !(p a))).length + (l.filter p).length = l.length := by
  induction l with
  | nil => rfl
  | cons a t ih =>
    cases h : p a <;> simp [List.filter_cons, h] <;> omega

/-- C10: For a job id not present in the store, `should_retry` returns
false and `increment_retry` performs no update at all; both operations
are total and raise nothing. -/
theorem missing_job_no_retry_no_update (s : JobStore) (job_id : String)
    (now : Int) (h : get_job s job_id = none) :
    should_retry s job_id = false ∧ increment_retry s job_id now = s :=
  ⟨should_retry_of_none s job_id h, increment_retry_of_none s job_id now h⟩

theorem missing_job_no_retry_no_update_witness :
    should_retry [] "job-1" = false ∧ increment_retry [] "job-1" 5 = [] :=
  missing_job_no_retry_no_update [] "job-1" 5 rfl

/-- C8: `cleanup_old_jobs` removes exactly the jobs whose status is
completed or failed and whose created_at is older than now minus the
configured max age; the deleted count plus the surviving count is the
store's size; pending and processing jobs always survive, however old. -/
theorem cleanup_removes_exactly_aged_terminal (s : JobStore) (now : Int) :
    (∀ j, j ∈ (cleanup_old_jobs s now).1 ↔
      (j ∈ s ∧ ¬(j.created_at < now - job_max_age_hours * 3600 ∧
        (j.status = JobStatus.completed ∨ j.status = JobStatus.failed)))) ∧
    (cleanup_old_jobs s now).1.length + (cleanup_old_jobs s now).2 = s.length ∧
    (∀ j, j ∈ s →
      (j.status = JobStatus.pending ∨ j.status = JobStatus.processing) →
      j ∈ (cleanup_old_jobs s now).1) := by
  have hpred : ∀ j : TripGenerationJob,
      cleanup_pred now j = true ↔
        (j.created_at < now - job_max_age_hours * 3600 ∧
          (j.status = JobStatus.completed ∨ j.status = JobStatus.failed)) := by
    intro j
    simp [cleanup_pred, cleanup_cutoff]
  refine ⟨?_, ?_, ?_⟩
  · intro j
    rw [cleanup_old_jobs]
    simp only [List.mem_filter, Bool.not_eq_eq_eq_not, Bool.not_true,
      ← hpred j]
    constructor
    · rintro ⟨hj, hb⟩
      exact ⟨hj, by simp [hb]⟩
    · rintro ⟨hj, hb⟩
      refine ⟨hj, ?_⟩
      cases h : cleanup_pred now j
      · rfl
      · exact absurd h hb
  · exact filter_length_partition (cleanup_pred now) s
  · intro j hj hst
    rw [cleanup_old_jobs]
    simp only [List.mem_filter]
    refine ⟨hj, ?_⟩
    cases h : cleanup_pred now j
    · rfl
    · rcases (hpred j).mp h with ⟨-, hterm⟩
      rcases hst with h1 | h1 <;> rcases hterm with h2 | h2 <;>
        rw [h1] at h2 <;> exact absurd h2 (by simp)

theorem cleanup_removes_exactly_aged_terminal_witness :
    ((cleanup_old_jobs
        [{ id := "j1", user_id := "u", status := JobStatus.pending,
           created_at := -100000 }] 0).1 =
      [{ id := "j1", user_id := "u", status := JobStatus.pending,
         created_at := -100000 }]) ∧
    ({ id := "j1", user_id := "u", status := JobStatus.pending,
       created_at := -100000 : TripGenerationJob } ∈
      (cleanup_old_jobs
        [{ id := "j1", user_id := "u", status := JobStatus.pending,
           created_at := -100000 }] 0).1) := by
  constructor
  · rfl
  · exact (cleanup_removes_exactly_aged_terminal
      [{ id := "j1", user_id := "u", status := JobStatus.pending,
         created_at := -100000 }] 0).2.2 _ (List.mem_singleton.mpr rfl)
      (Or.inl rfl)

theorem stuck_pred_iff (now : Int) (j : TripGenerationJob) :
    stuck_pred now j = true ↔
      (j.status = JobStatus.processing ∧
        ∃ t, j.started_at = some t ∧
          t < now - trip_generation_timeout_seconds) := by
  unfold stuck_pred stuck_cutoff
  cases h : j.started_at <;> simp [h]

/-- A processing job that started at time 0, far beyond the timeout
window by time 1000. -/
def stuck_cex_job : TripGenerationJob :=
  { id := "job-stuck", user_id := "u1", status := JobStatus.processing,
    started_at := some 0 }

/-- A store holding 101 stuck jobs. -/
def stuck_cex_store : JobStore := List.replicate 101 stuck_cex_job

/-- C6 counterexample: with 101 stuck jobs in the store, `get_stuck_jobs`
returns only 100 of them — the claim that every stuck job is returned
fails. -/
theorem get_stuck_jobs_misses_beyond_100 :
    (stuck_cex_store.filter (stuck_pred 1000)).length = 101 ∧
    (get_stuck_jobs stuck_cex_store 1000).length = 100 ∧
    get_stuck_jobs stuck_cex_store 1000 ≠
      stuck_cex_store.filter (stuck_pred 1000) := by
  have h1 : (stuck_cex_store.filter (stuck_pred 1000)).length = 101 := by rfl
  have h2 : (get_stuck_jobs stuck_cex_store 1000).length = 100 := by rfl
  refine ⟨h1, h2, fun h => ?_⟩
  have h3 : (100 : Nat) = 101 := by
    rw [← h2, ← h1]
    exact congrArg List.length h
  exact absurd h3 (by omega)

/-- C6 amended: every job returned by `get_stuck_jobs` is a stuck job of
the store (status processing, started_at older than the timeout window),
and whenever at most 100 jobs of the store are stuck, the result is
exactly the set of stuck jobs. -/
theorem get_stuck_jobs_exact_upto_100 (s : JobStore) (now : Int) :
    (∀ j, j ∈ get_stuck_jobs s now →
      (j ∈ s ∧ j.status = JobStatus.processing ∧
        ∃ t, j.started_at = some t ∧
          t < now - trip_generation_timeout_seconds)) ∧
    ((s.filter (stuck_pred now)).length ≤ 100 →
      ∀ j, j ∈ get_stuck_jobs s now ↔
        (j ∈ s ∧ j.status = JobStatus.processing ∧
          ∃ t, j.started_at = some t ∧
            t < now - trip_generation_timeout_seconds)) := by
  constructor
  · intro j hj
    have hm : j ∈ s.filter (stuck_pred now) := List.mem_of_mem_take hj
    rw [List.mem_filter] at hm
    exact ⟨hm.1, (stuck_pred_iff now j).mp hm.2⟩
  · intro hlen j
    rw [get_stuck_jobs, List.take_of_length_le hlen, List.mem_filter,
      stuck_pred_iff]

theorem get_stuck_jobs_exact_upto_100_witness :
    stuck_cex_job ∈ get_stuck_jobs [stuck_cex_job] 1000 ∧
    stuck_cex_job ∈ ([stuck_cex_job] : JobStore) ∧
    stuck_cex_job.status = JobStatus.processing := by
  refine ⟨?_, List.mem_singleton.mpr rfl, rfl⟩
  exact ((get_stuck_jobs_exact_upto_100 [stuck_cex_job] 1000).2 (by decide)
    stuck_cex_job).mpr
    ⟨List.mem_singleton.mpr rfl, rfl, 0, rfl, by decide⟩

theorem get_job_isSome_of_should_retry (s : JobStore) (job_id : String)
    (h : should_retry s job_id = true) :
    ∃ job, get_job s job_id = some job := by
  unfold should_retry at h
  cases hg : get_job s job_id with
  | none => rw [hg] at h; exact absurd h (by simp)
  | some job => exact ⟨job, rfl⟩

theorem handle_generic_error_of_retryable (s : JobStore) (job_id msg : String)
    (now : Int) (job : TripGenerationJob) (h : get_job s job_id = some job)
    (hce : classify_error msg = ErrorType.transient)
    (hr : should_retry s job_id = true) :
    handle_generic_error s job_id msg now =
      SchedulerAction.retried (increment_retry s job_id now)
        (2 ^ (job.retry_count + 1)) := by
  unfold handle_generic_error
  rw [hce, hr, get_job_increment_retry s job_id now job h]
  rfl

theorem handle_timeout_of_retryable (s : JobStore) (job_id : String)
    (now : Int) (job : TripGenerationJob) (h : get_job s job_id = some job)
    (hr : should_retry s job_id = true) :
    handle_timeout s job_id now =
      SchedulerAction.retried (increment_retry s job_id now)
        (2 ^ (job.retry_count + 1)) := by
  unfold handle_timeout
  rw [hr]
  simp only [if_true]
  rw [get_job_increment_retry s job_id now job h]

theorem handle_generic_error_of_not_transient (s : JobStore)
    (job_id msg : String) (now : Int)
    (hce : classify_error msg ≠ ErrorType.transient) :
    handle_generic_error s job_id msg now =
      SchedulerAction.marked_failed
        (mark_failed s job_id msg (classify_error msg) now)
        msg (classify_error msg) := by
  cases hcem : classify_error msg with
  | transient => exact absurd hcem hce
  | timeout => unfold handle_generic_error; rw [hcem]; rfl
  | validation => unfold handle_generic_error; rw [hcem]; rfl
  | api_error => unfold handle_generic_error; rw [hcem]; rfl
  | unknown => unfold handle_generic_error; rw [hcem]; rfl

theorem handle_generic_error_of_no_retry (s : JobStore) (job_id msg : String)
    (now : Int) (hr : should_retry s job_id = false) :
    handle_generic_error s job_id msg now =
      SchedulerAction.marked_failed
        (mark_failed s job_id msg (classify_error msg) now)
        msg (classify_error msg) := by
  cases hcem : classify_error msg <;>
    (unfold handle_generic_error; rw [hcem, hr]; rfl)

/-- C1: In the generic-exception branch of the job processor, the retry
path (increment, backoff, re-dispatch) is taken exactly when the
classifier maps the error to transient AND the retry policy allows it;
for any error whose classified kind is not transient (validation,
api_error, unknown), the job is marked failed immediately with that kind,
regardless of remaining retry budget. -/
theorem generic_error_retry_policy (s : JobStore) (job_id error_msg : String)
    (now : Int) :
    ((handle_generic_error s job_id error_msg now).isRetry = true ↔
      (classify_error error_msg = ErrorType.transient ∧
        should_retry s job_id = true)) ∧
    (classify_error error_msg ≠ ErrorType.transient →
      handle_generic_error s job_id error_msg now =
        SchedulerAction.marked_failed
          (mark_failed s job_id error_msg (classify_error error_msg) now)
          error_msg (classify_error error_msg)) := by
  constructor
  · constructor
    · intro h
      by_cases hce : classify_error error_msg = ErrorType.transient
      · by_cases hr : should_retry s job_id = true
        · exact ⟨hce, hr⟩
        · rw [handle_generic_error_of_no_retry s job_id error_msg now
            (by simpa using hr)] at h
          exact absurd h (by simp [SchedulerAction.isRetry])
      · rw [handle_generic_error_of_not_transient s job_id error_msg now
          hce] at h
        exact absurd h (by simp [SchedulerAction.isRetry])
    · rintro ⟨hce, hr⟩
      obtain ⟨job, hjob⟩ := get_job_isSome_of_should_retry s job_id hr
      rw [handle_generic_error_of_retryable s job_id error_msg now job hjob
        hce hr]
      rfl
  · exact handle_generic_error_of_not_transient s job_id error_msg now

def w1_job : TripGenerationJob :=
  { id := "j1", user_id := "u", retry_count := 0, max_retries := 2 }

theorem generic_error_retry_policy_witness :
    ((handle_generic_error [w1_job] "j1" "rate limit exceeded" 3).isRetry
        = true ↔
      (classify_error "rate limit exceeded" = ErrorType.transient ∧
        should_retry [w1_job] "j1" = true)) ∧
    handle_generic_error [w1_job] "j1" "rate limit exceeded" 3 =
      SchedulerAction.marked_failed
        (mark_failed [w1_job] "j1" "rate limit exceeded" ErrorType.api_error 3)
        "rate limit exceeded" ErrorType.api_error := by
  have hce : classify_error "rate limit exceeded" = ErrorType.api_error := by
    decide
  refine ⟨(generic_error_retry_policy [w1_job] "j1" "rate limit exceeded" 3).1,
    ?_⟩
  have h := (generic_error_retry_policy [w1_job] "j1" "rate limit exceeded"
    3).2 (by rw [hce]; intro hc; exact absurd hc (by decide))
  rw [hce] at h
  exact h

/-- C4: A validation failure is never retried: the retry policy returns
false for a job whose stored error kind is validation; the ValueError
branch marks the job failed with kind validation (prefixing the message)
while preserving retry_count; and the generic branch never takes the
retry path for an error classified validation. -/
theorem validation_never_retried :
    (∀ (s : JobStore) (job_id : String) (j : TripGenerationJob),
      get_job s job_id = some j →
      j.error_type = some ErrorType.validation →
      should_retry s job_id = false) ∧
    (∀ (s : JobStore) (job_id msg : String) (now : Int)
       (j : TripGenerationJob),
      get_job s job_id = some j →
      get_job (handle_value_error s job_id msg now) job_id =
        some { j with
               status := JobStatus.failed,
               error_message := some ("Validation error: " ++ msg),
               error_type := some ErrorType.validation,
               completed_at := some now, updated_at := now } ∧
      ({ j with
         status := JobStatus.failed,
         error_message := some ("Validation error: " ++ msg),
         error_type := some ErrorType.validation,
         completed_at := some now,
         updated_at := now } : TripGenerationJob).retry_count =
        j.retry_count) ∧
    (∀ (s : JobStore) (job_id msg : String) (now : Int),
      classify_error msg = ErrorType.validation →
      (handle_generic_error s job_id msg now).isRetry = false) := by
  refine ⟨?_, ?_, ?_⟩
  · intro s job_id j h hv
    unfold should_retry
    rw [h]
    simp [hv]
  · intro s job_id msg now j h
    refine ⟨?_, rfl⟩
    unfold handle_value_error
    rw [get_job_mark_failed, h]
    rfl
  · intro s job_id msg now hce
    rw [handle_generic_error_of_not_transient s job_id msg now
      (by rw [hce]; intro hc; exact absurd hc (by decide))]
    rfl

def w4_job : TripGenerationJob :=
  { id := "j4", user_id := "u", retry_count := 1, max_retries := 2,
    error_type := some ErrorType.validation }

theorem validation_never_retried_witness :
    should_retry [w4_job] "j4" = false ∧
    get_job (handle_value_error [w4_job] "j4" "age is required" 3) "j4" =
      some { w4_job with
             status := JobStatus.failed,
             error_message := some "Validation error: age is required",
             error_type := some ErrorType.validation,
             completed_at := some 3, updated_at := 3 } ∧
    (handle_generic_error [w4_job] "j4" "invalid destination" 3).isRetry =
      false := by
  refine ⟨validation_never_retried.1 [w4_job] "j4" w4_job rfl rfl, ?_, ?_⟩
  · exact (validation_never_retried.2.1 [w4_job] "j4" "age is required" 3
      w4_job rfl).1
  · exact validation_never_retried.2.2 [w4_job] "j4" "invalid destination" 3
      (by decide)

/-- C7: On both retry paths — timeout and transient generic error — the
backoff sleep inserted before re-dispatch is exactly 2^k seconds where k
is the retry_count after the increment (the pre-failure retry_count plus
one). -/
theorem backoff_is_two_pow_retry_count (s : JobStore) (job_id : String)
    (now : Int) (job : TripGenerationJob)
    (h : get_job s job_id = some job) (hr : should_retry s job_id = true) :
    handle_timeout s job_id now =
      SchedulerAction.retried (increment_retry s job_id now)
        (2 ^ (job.retry_count + 1)) ∧
    (∀ msg, classify_error msg = ErrorType.transient →
      handle_generic_error s job_id msg now =
        SchedulerAction.retried (increment_retry s job_id now)
          (2 ^ (job.retry_count + 1))) ∧
    (get_job (increment_retry s job_id now) job_id).map
        TripGenerationJob.retry_count = some (job.retry_count + 1) := by
  refine ⟨handle_timeout_of_retryable s job_id now job h hr,
    fun msg hce =>
      handle_generic_error_of_retryable s job_id msg now job h hce hr, ?_⟩
  rw [get_job_increment_retry s job_id now job h]
  rfl

def w7_job : TripGenerationJob :=
  { id := "j7", user_id := "u", retry_count := 1, max_retries := 2 }

theorem backoff_is_two_pow_retry_count_witness :
    handle_timeout [w7_job] "j7" 3 =
      SchedulerAction.retried (increment_retry [w7_job] "j7" 3) 4 ∧
    handle_generic_error [w7_job] "j7" "connection reset by peer" 3 =
      SchedulerAction.retried (increment_retry [w7_job] "j7" 3) 4 := by
  have h := backoff_is_two_pow_retry_count [w7_job] "j7" 3 w7_job rfl
    (by decide)
  exact ⟨h.1, h.2.1 "connection reset by peer" (by decide)⟩

theorem handle_timeout_of_no_retry (s : JobStore) (job_id : String)
    (now : Int) (hr : should_retry s job_id = false) :
    handle_timeout s job_id now =
      SchedulerAction.marked_failed
        (mark_failed s job_id timeout_error_message ErrorType.timeout now)
        timeout_error_message ErrorType.timeout := by
  unfold handle_timeout
  rw [hr]
  rfl

theorem jobstep_retry_facts (job_id : String) (s s' : JobStore)
    (hstep : JobStep job_id s s') (j j' : TripGenerationJob)
    (hj : get_job s job_id = some j) (hj' : get_job s' job_id = some j') :
    j'.max_retries = j.max_retries ∧
    j.retry_count ≤ j'.retry_count ∧
    j'.retry_count ≤ j.retry_count + 1 ∧
    (j.retry_count ≤ j.max_retries → j'.retry_count ≤ j'.max_retries) := by
  cases hstep with
  | created new_id user_id now =>
    rw [get_job_create_job s job_id new_id user_id now j hj] at hj'
    have he : j = j' := Option.some.inj hj'
    subst he
    exact ⟨rfl, Nat.le_refl _, Nat.le_succ _, fun h => h⟩
  | processing now =>
    rw [get_job_mark_processing, hj] at hj'
    have he : _ = j' := Option.some.inj hj'
    subst he
    exact ⟨rfl, Nat.le_refl _, Nat.le_succ _, fun h => h⟩
  | completed trip_id now =>
    rw [get_job_mark_completed, hj] at hj'
    have he : _ = j' := Option.some.inj hj'
    subst he
    exact ⟨rfl, Nat.le_refl _, Nat.le_succ _, fun h => h⟩
  | value_error msg now =>
    unfold handle_value_error at hj'
    rw [get_job_mark_failed, hj] at hj'
    have he : _ = j' := Option.some.inj hj'
    subst he
    exact ⟨rfl, Nat.le_refl _, Nat.le_succ _, fun h => h⟩
  | timed_out now =>
    rw [handle_timeout_resultStore] at hj'
    by_cases hr : should_retry s job_id = true
    · rw [if_pos hr, get_job_increment_retry s job_id now j hj] at hj'
      have he : _ = j' := Option.some.inj hj'
      subst he
      have hlt := retry_count_lt_of_should_retry s job_id j hj hr
      exact ⟨rfl, Nat.le_succ _, Nat.le_refl _, fun _ => hlt⟩
    · rw [if_neg hr, get_job_mark_failed, hj] at hj'
      have he : _ = j' := Option.some.inj hj'
      subst he
      exact ⟨rfl, Nat.le_refl _, Nat.le_succ _, fun h => h⟩
  | generic_error msg now =>
    rw [handle_generic_error_resultStore] at hj'
    by_cases hb : (classify_error msg == ErrorType.transient &&
        should_retry s job_id) = true
    · rw [if_pos hb, get_job_increment_retry s job_id now j hj] at hj'
      have he : _ = j' := Option.some.inj hj'
      subst he
      have hr : should_retry s job_id = true := ((Bool.and_eq_true _ _).mp hb).2
      have hlt := retry_count_lt_of_should_retry s job_id j hj hr
      exact ⟨rfl, Nat.le_succ _, Nat.le_refl _, fun _ => hlt⟩
    · rw [if_neg hb, get_job_mark_failed, hj] at hj'
      have he : _ = j' := Option.some.inj hj'
      subst he
      exact ⟨rfl, Nat.le_refl _, Nat.le_succ _, fun h => h⟩

/-- C3: Along every scheduler-driven store transition, a job's
retry_count never decreases and grows by at most 1; a retry cycle
increments it by exactly 1 and keeps it within max_retries (which never
changes); and once retry_count has reached max_retries, both the timeout
branch and the generic-error branch mark the job failed instead of
retrying. -/
theorem retry_count_monotone_and_bounded :
    (∀ (job_id : String) (s s' : JobStore), JobStep job_id s s' →
      ∀ j j', get_job s job_id = some j → get_job s' job_id = some j' →
        j'.max_retries = j.max_retries ∧
        j.retry_count ≤ j'.retry_count ∧
        j'.retry_count ≤ j.retry_count + 1 ∧
        (j.retry_count ≤ j.max_retries → j'.retry_count ≤ j'.max_retries)) ∧
    (∀ (s : JobStore) (job_id : String) (now : Int) (j : TripGenerationJob),
      get_job s job_id = some j → should_retry s job_id = true →
      (get_job (increment_retry s job_id now) job_id).map
          TripGenerationJob.retry_count = some (j.retry_count + 1) ∧
      j.retry_count + 1 ≤ j.max_retries) ∧
    (∀ (s : JobStore) (job_id msg : String) (now : Int)
       (j : TripGenerationJob),
      get_job s job_id = some j → j.max_retries ≤ j.retry_count →
      handle_timeout s job_id now =
        SchedulerAction.marked_failed
          (mark_failed s job_id timeout_error_message ErrorType.timeout now)
          timeout_error_message ErrorType.timeout ∧
      handle_generic_error s job_id msg now =
        SchedulerAction.marked_failed
          (mark_failed s job_id msg (classify_error msg) now)
          msg (classify_error msg)) := by
  refine ⟨?_, ?_, ?_⟩
  · intro job_id s s' hstep j j' hj hj'
    exact jobstep_retry_facts job_id s s' hstep j j' hj hj'
  · intro s job_id now j hj hr
    constructor
    · rw [get_job_increment_retry s job_id now j hj]
      rfl
    · exact retry_count_lt_of_should_retry s job_id j hj hr
  · intro s job_id msg now j hj hmax
    have hsr := should_retry_false_of_exhausted s job_id j hj hmax
    exact ⟨handle_timeout_of_no_retry s job_id now hsr,
      handle_generic_error_of_no_retry s job_id msg now hsr⟩

def w3_job : TripGenerationJob :=
  { id := "j3", user_id := "u", retry_count := 0, max_retries := 2 }

def w3_after : TripGenerationJob :=
  { w3_job with status := JobStatus.processing, started_at := some 7,
                updated_at := 7 }

def w3_exhausted : TripGenerationJob :=
  { id := "j3x", user_id := "u", retry_count := 2, max_retries := 2 }

theorem retry_count_monotone_and_bounded_witness :
    (w3_after.max_retries = w3_job.max_retries ∧
     w3_job.retry_count ≤ w3_after.retry_count ∧
     w3_after.retry_count ≤ w3_job.retry_count + 1 ∧
     (w3_job.retry_count ≤ w3_job.max_retries →
       w3_after.retry_count ≤ w3_after.max_retries)) ∧
    ((get_job (increment_retry [w3_job] "j3" 9) "j3").map
        TripGenerationJob.retry_count = some (w3_job.retry_count + 1) ∧
     w3_job.retry_count + 1 ≤ w3_job.max_retries) ∧
    (handle_timeout [w3_exhausted] "j3x" 9 =
       SchedulerAction.marked_failed
         (mark_failed [w3_exhausted] "j3x" timeout_error_message
           ErrorType.timeout 9)
         timeout_error_message ErrorType.timeout ∧
     handle_generic_error [w3_exhausted] "j3x" "connection lost" 9 =
       SchedulerAction.marked_failed
         (mark_failed [w3_exhausted] "j3x" "connection lost"
           (classify_error "connection lost") 9)
         "connection lost" (classify_error "connection lost")) :=
  ⟨retry_count_monotone_and_bounded.1 "j3" [w3_job] _
     (JobStep.processing [w3_job] 7) w3_job w3_after rfl rfl,
   retry_count_monotone_and_bounded.2.1 [w3_job] "j3" 9 w3_job rfl
     (by decide),
   retry_count_monotone_and_bounded.2.2 [w3_exhausted] "j3x"
     "connection lost" 9 w3_exhausted rfl (by decide)⟩

theorem fanout_results_length {PL : Type} (travelers : List TravelerInDB)
    (gen : TravelerInDB → Bool → Except String PL) :
    (fanout_results travelers gen).length = travelers.length := by
  simp [fanout_results]

theorem fanout_lengths {PL : Type} (rs : List (Except String PL)) :
    ∀ ts : List TravelerInDB, rs.length = ts.length →
      (fanout_successes rs).length + (fanout_errors ts rs).length =
        ts.length := by
  induction rs with
  | nil =>
    intro ts h
    cases ts with
    | nil => rfl
    | cons t ts' => exact absurd h (by simp)
  | cons r rest ih =>
    intro ts h
    cases ts with
    | nil => exact absurd h (by simp)
    | cons t ts' =>
      have h' : rest.length = ts'.length := by simpa using h
      have hih := ih ts' h'
      cases r with
      | ok pl =>
        have hs : fanout_successes (Except.ok pl :: rest) =
            pl :: fanout_successes rest := rfl
        have he : fanout_errors (t :: ts') (Except.ok pl :: rest) =
            fanout_errors ts' rest := rfl
        rw [hs, he, List.length_cons, List.length_cons]
        omega
      | error e =>
        have hs : fanout_successes (Except.error e :: rest) =
            fanout_successes rest := rfl
        have he : fanout_errors (t :: ts') (Except.error e :: rest) =
            per_traveler_error_message t.name e :: fanout_errors ts' rest :=
          rfl
        rw [hs, he, List.length_cons, List.length_cons]
        omega

theorem fanout_successes_nil_of_all_fail {PL : Type}
    (rs : List (Except String PL))
    (h : ∀ r ∈ rs, ¬∃ pl, r = Except.ok pl) :
    fanout_successes rs = [] := by
  unfold fanout_successes
  rw [List.filterMap_eq_nil_iff]
  intro r hr
  cases r with
  | ok pl => exact absurd ⟨pl, rfl⟩ (h _ hr)
  | error e => rfl

theorem mem_fanout_successes {PL : Type} (rs : List (Except String PL))
    (pl : PL) (r : Except String PL) (hr : r ∈ rs)
    (hok : r = Except.ok pl) : pl ∈ fanout_successes rs := by
  unfold fanout_successes
  exact List.mem_filterMap.mpr ⟨r, hr, by rw [hok]⟩

theorem generate_packing_lists_all_fail {PL : Type}
    (travelers : List TravelerInDB)
    (gen : TravelerInDB → Bool → Except String PL)
    (h : ∀ r ∈ fanout_results travelers gen, ¬∃ pl, r = Except.ok pl) :
    generate_packing_lists travelers gen =
      Except.error (wrap_failure_message (all_failed_message
        (fanout_errors travelers (fanout_results travelers gen)))) := by
  unfold generate_packing_lists
  rw [fanout_successes_nil_of_all_fail _ h]
  rfl

theorem generate_packing_lists_some_ok {PL : Type}
    (travelers : List TravelerInDB)
    (gen : TravelerInDB → Bool → Except String PL)
    (r : Except String PL) (pl : PL)
    (hr : r ∈ fanout_results travelers gen) (hok : r = Except.ok pl) :
    generate_packing_lists travelers gen =
      Except.ok (fanout_successes (fanout_results travelers gen)) ∧
    fanout_successes (fanout_results travelers gen) ≠ [] := by
  have hmem := mem_fanout_successes _ pl r hr hok
  have hne : fanout_successes (fanout_results travelers gen) ≠ [] := by
    intro h0
    rw [h0] at hmem
    exact absurd hmem (List.not_mem_nil pl)
  refine ⟨?_, hne⟩
  unfold generate_packing_lists
  rw [List.isEmpty_eq_false.mpr hne]
  rfl

/-- C2: For a non-empty traveler list, the fan-out join collects every
per-traveler outcome: if every task fails, the aggregate error carrying
one message per traveler is raised and `generate_trip` persists no Trip;
if at least one task succeeds, exactly the successful results are
returned, in traveler order, the failures contributing only log lines
(one error message per failed traveler, with successes plus failures
accounting for every traveler). -/
theorem fanout_partial_failure_policy :
    (∀ (PL : Type) (travelers : List TravelerInDB)
       (gen : TravelerInDB → Bool → Except String PL),
       travelers ≠ [] →
       (∀ r ∈ fanout_results travelers gen, ¬∃ pl, r = Except.ok pl) →
       generate_packing_lists travelers gen =
         Except.error (wrap_failure_message (all_failed_message
           (fanout_errors travelers (fanout_results travelers gen)))) ∧
       (fanout_errors travelers (fanout_results travelers gen)).length =
         travelers.length) ∧
    (∀ (PL : Type) (travelers : List TravelerInDB)
       (gen : TravelerInDB → Bool → Except String PL)
       (r : Except String PL) (pl : PL),
       r ∈ fanout_results travelers gen → r = Except.ok pl →
       generate_packing_lists travelers gen =
         Except.ok (fanout_successes (fanout_results travelers gen)) ∧
       fanout_successes (fanout_results travelers gen) ≠ [] ∧
       (fanout_successes (fanout_results travelers gen)).length +
         (fanout_errors travelers (fanout_results travelers gen)).length =
           travelers.length) ∧
    (∀ (W PL : Type) (user_id : String) (trip_data : TripCreate)
       (weather_result : Except String W)
       (gen : TravelerInDB → Bool → Except String PL)
       (ins rsm rfm : Except String Unit) (fresh_ids : Nat → String)
       (trip_oid : String) (now : Int),
       (∀ r ∈ fanout_results (prepare_travelers trip_data fresh_ids) gen,
         ¬∃ pl, r = Except.ok pl) →
       (generate_trip user_id trip_data weather_result gen ins rsm rfm
           fresh_ids trip_oid now).persisted_trips = [] ∧
       (generate_trip user_id trip_data weather_result gen ins rsm rfm
           fresh_ids trip_oid now).result =
         Except.error (wrap_failure_message (all_failed_message
           (fanout_errors (prepare_travelers trip_data fresh_ids)
             (fanout_results (prepare_travelers trip_data fresh_ids)
               gen))))) := by
  refine ⟨?_, ?_, ?_⟩
  · intro PL travelers gen _ hall
    refine ⟨generate_packing_lists_all_fail travelers gen hall, ?_⟩
    have hlen := fanout_lengths (fanout_results travelers gen) travelers
      (fanout_results_length travelers gen)
    rw [fanout_successes_nil_of_all_fail _ hall] at hlen
    simpa using hlen
  · intro PL travelers gen r pl hr hok
    have h := generate_packing_lists_some_ok travelers gen r pl hr hok
    refine ⟨h.1, h.2, ?_⟩
    exact fanout_lengths (fanout_results travelers gen) travelers
      (fanout_results_length travelers gen)
  · intro W PL user_id trip_data weather_result gen ins rsm rfm fresh_ids
      trip_oid now hall
    have herr := generate_packing_lists_all_fail
      (prepare_travelers trip_data fresh_ids) gen hall
    simp only [generate_trip]
    rw [herr]
    cases rfm <;> exact ⟨rfl, rfl⟩

def w2_travelers : List TravelerInDB :=
  [{ id := "a", name := "Alice", age := 30, type := TravelerType.adult },
   { id := "b", name := "Bob", age := 7, type := TravelerType.child },
   { id := "c", name := "Carol", age := 5, type := TravelerType.child }]

def w2_gen : TravelerInDB → Bool → Except String String := fun t _ =>
  if t.id == "b" then Except.error "connection reset"
  else Except.ok ("list-" ++ t.id)

def w2_gen_fail : TravelerInDB → Bool → Except String String := fun _ _ =>
  Except.error "network down"

def w2_trip_data : TripCreate :=
  { destination := "Lisbon", start_date := "2026-03-01",
    end_date := "2026-03-05",
    travelers := [{ name := "Alice", age := 30, type := TravelerType.adult }] }

theorem fanout_partial_failure_policy_witness :
    generate_packing_lists w2_travelers w2_gen =
      Except.ok ["list-a", "list-c"] ∧
    generate_packing_lists w2_travelers w2_gen_fail =
      Except.error (wrap_failure_message (all_failed_message
        (fanout_errors w2_travelers
          (fanout_results w2_travelers w2_gen_fail)))) ∧
    (generate_trip "u1" w2_trip_data (Except.ok ()) w2_gen_fail
        (Except.ok ()) (Except.ok ()) (Except.ok ())
        (fun i => toString i) "t1" 0 : GenTripRun Unit String).persisted_trips
      = [] := by
  have hallfail : ∀ {ts : List TravelerInDB}
      (r : Except String String), r ∈ fanout_results ts w2_gen_fail →
      ¬∃ pl, r = Except.ok pl := by
    intro ts r hr hex
    rcases hex with ⟨pl, hpl⟩
    subst hpl
    simp [fanout_results, w2_gen_fail] at hr
  refine ⟨?_, ?_, ?_⟩
  · exact (fanout_partial_failure_policy.2.1 String w2_travelers w2_gen
      (Except.ok "list-a") "list-a" (List.Mem.head _) rfl).1.trans (by rfl)
  · exact (fanout_partial_failure_policy.1 String w2_travelers w2_gen_fail
      (by simp [w2_travelers]) (fun r hr => hallfail r hr)).1
  · exact (fanout_partial_failure_policy.2.2 Unit String "u1" w2_trip_data
      (Except.ok ()) w2_gen_fail (Except.ok ()) (Except.ok ()) (Except.ok ())
      (fun i => toString i) "t1" 0 (fun r hr => hallfail r hr)).1

/-- C9: When every step other than the weather fetch succeeds (non-empty
traveler list, per-traveler generation, trip insert and metrics insert
all succeed), a weather-collaborator failure does not abort the workflow:
the Trip is still persisted, with a null weather_data value, and
returned. -/
theorem weather_failure_nonfatal (W PL : Type) (user_id : String)
    (trip_data : TripCreate) (werr : String)
    (gen : TravelerInDB → Bool → Except String PL)
    (rfm : Except String Unit) (fresh_ids : Nat → String)
    (trip_oid : String) (now : Int)
    (hne : trip_data.travelers ≠ [])
    (hgen : ∀ t b, ∃ pl, gen t b = Except.ok pl) :
    ∃ trip,
      (generate_trip user_id trip_data
        (Except.error werr : Except String W) gen
        (Except.ok ()) (Except.ok ()) rfm fresh_ids trip_oid now).result =
        Except.ok trip ∧
      trip.weather_data = none ∧
      (generate_trip user_id trip_data
        (Except.error werr : Except String W) gen
        (Except.ok ()) (Except.ok ()) rfm fresh_ids trip_oid
        now).persisted_trips = [trip] := by
  obtain ⟨t0, ts0, hts⟩ : ∃ t0 ts0, trip_data.travelers = t0 :: ts0 := by
    cases htr : trip_data.travelers with
    | nil => exact absurd htr hne
    | cons a l => exact ⟨a, l, rfl⟩
  have hmem0 : prepare_traveler (fresh_ids 0) t0 ∈
      prepare_travelers trip_data fresh_ids := by
    unfold prepare_travelers
    rw [hts]
    exact List.Mem.head _
  obtain ⟨pdb, pdbs, hpdb⟩ : ∃ pdb pdbs,
      prepare_travelers trip_data fresh_ids = pdb :: pdbs := by
    cases hp : prepare_travelers trip_data fresh_ids with
    | nil => rw [hp] at hmem0; exact absurd hmem0 (List.not_mem_nil _)
    | cons a l => exact ⟨a, l, rfl⟩
  have hhead : format_traveler pdb ∈
      (prepare_travelers trip_data fresh_ids).map format_traveler := by
    rw [hpdb]
    exact List.Mem.head _
  obtain ⟨pl0, hok0⟩ := hgen (format_traveler pdb)
    (primary_packer_id
      ((prepare_travelers trip_data fresh_ids).map format_traveler) ==
        some (format_traveler pdb).id)
  have hrmem : gen (format_traveler pdb)
      (primary_packer_id
        ((prepare_travelers trip_data fresh_ids).map format_traveler) ==
          some (format_traveler pdb).id) ∈
      fanout_results (prepare_travelers trip_data fresh_ids) gen := by
    unfold fanout_results
    exact List.mem_map_of_mem _ hhead
  have hpack := generate_packing_lists_some_ok
    (prepare_travelers trip_data fresh_ids) gen _ pl0 hrmem hok0
  simp only [generate_trip]
  rw [hpack.1]
  exact ⟨_, rfl, rfl, rfl⟩

def w9_trip_data : TripCreate :=
  { destination := "Lisbon", start_date := "2026-03-01",
    end_date := "2026-03-05",
    travelers := [{ name := "Alice", age := 30, type := TravelerType.adult }] }

theorem weather_failure_nonfatal_witness :
    (generate_trip "u1" w9_trip_data (Except.error "weather api down")
      (fun _ _ => (Except.ok "items" : Except String String))
      (Except.ok ()) (Except.ok ()) (Except.ok ())
      (fun i => toString i) "t9" 0 : GenTripRun Unit String).persisted_trips
        ≠ [] := by
  obtain ⟨trip, hres, hw, hp⟩ := weather_failure_nonfatal Unit String "u1"
    w9_trip_data "weather api down" (fun _ _ => Except.ok "items")
    (Except.ok ()) (fun i => toString i) "t9" 0
    (by simp [w9_trip_data]) (fun t b => ⟨"items", rfl⟩)
  rw [hp]
  simp

def c5_trip_data : TripCreate :=
  { destination := "Paris", start_date := "2026-01-01",
    end_date := "2026-01-05",
    travelers := [{ name := "Alice", age := 30, type := TravelerType.adult }] }

def c5_gen : TravelerInDB → Bool → Except String Unit := fun _ _ =>
  Except.ok ()

/-- A run in which every workflow step succeeds but the success-path
metrics insert fails (the failure-path insert would succeed). -/
def c5_run : GenTripRun Unit Unit :=
  generate_trip "user-1" c5_trip_data (Except.ok ()) c5_gen (Except.ok ())
    (Except.error "metrics db down") (Except.ok ()) (fun i => toString i)
    "trip-1" 0

/-- C5 counterexample: the trip was persisted, yet `generate_trip` does
not return it — it re-raises the metrics error, so a metrics-recording
failure does change the primary outcome. -/
theorem metrics_failure_changes_primary_outcome :
    c5_run.persisted_trips.length = 1 ∧
    c5_run.result = Except.error "metrics db down" :=
  ⟨rfl, rfl⟩

/-- C5 amended: a failure while recording the failure-path metric is
swallowed and the primary error (fan-out failure or trip-insert failure)
is re-raised unchanged, independent of both metrics outcomes; but a
failure while recording the success-path metric is not swallowed: it
propagates to the caller even though the trip — the same trip returned
when the metrics insert succeeds — has already been persisted. -/
theorem metrics_failure_handling (W PL : Type) (user_id : String)
    (trip_data : TripCreate) (weather_result : Except String W)
    (gen : TravelerInDB → Bool → Except String PL)
    (fresh_ids : Nat → String) (trip_oid : String) (now : Int) :
    (∀ e, generate_packing_lists (prepare_travelers trip_data fresh_ids)
        gen = Except.error e →
      ∀ ins rsm rfm,
        (generate_trip user_id trip_data weather_result gen ins rsm rfm
          fresh_ids trip_oid now).result = Except.error e ∧
        (generate_trip user_id trip_data weather_result gen ins rsm rfm
          fresh_ids trip_oid now).persisted_trips = []) ∧
    (∀ pls ie, generate_packing_lists (prepare_travelers trip_data
        fresh_ids) gen = Except.ok pls →
      ∀ rsm rfm,
        (generate_trip user_id trip_data weather_result gen
          (Except.error ie) rsm rfm fresh_ids trip_oid now).result =
          Except.error ie ∧
        (generate_trip user_id trip_data weather_result gen
          (Except.error ie) rsm rfm fresh_ids trip_oid
          now).persisted_trips = []) ∧
    (∀ pls me, generate_packing_lists (prepare_travelers trip_data
        fresh_ids) gen = Except.ok pls →
      ∀ rfm, ∃ trip,
        (generate_trip user_id trip_data weather_result gen (Except.ok ())
          (Except.error me) rfm fresh_ids trip_oid now).result =
          Except.error me ∧
        (generate_trip user_id trip_data weather_result gen (Except.ok ())
          (Except.error me) rfm fresh_ids trip_oid now).persisted_trips =
          [trip] ∧
        (generate_trip user_id trip_data weather_result gen (Except.ok ())
          (Except.ok ()) rfm fresh_ids trip_oid now).result =
          Except.ok trip) := by
  refine ⟨?_, ?_, ?_⟩
  · intro e he ins rsm rfm
    simp only [generate_trip]
    rw [he]
    cases rfm <;> exact ⟨rfl, rfl⟩
  · intro pls ie hok rsm rfm
    simp only [generate_trip]
    rw [hok]
    cases rfm <;> exact ⟨rfl, rfl⟩
  · intro pls me hok rfm
    simp only [generate_trip]
    rw [hok]
    cases rfm <;> exact ⟨_, rfl, rfl, rfl⟩

theorem metrics_failure_handling_witness :
    (generate_trip "user-1" c5_trip_data (Except.ok ()) c5_gen
      (Except.ok ()) (Except.error "metrics db down") (Except.ok ())
      (fun i => toString i) "trip-1" 0).result =
      Except.error "metrics db down" ∧
    (generate_trip "user-1" c5_trip_data (Except.ok ()) c5_gen
      (Except.error "insert failed") (Except.ok ()) (Except.ok ())
      (fun i => toString i) "trip-1" 0).result =
      Except.error "insert failed" := by
  have h3 := (metrics_failure_handling Unit Unit "user-1" c5_trip_data
    (Except.ok ()) c5_gen (fun i => toString i) "trip-1" 0).2.2
    (fanout_successes
      (fanout_results (prepare_travelers c5_trip_data (fun i => toString i))
        c5_gen))
    "metrics db down" rfl (Except.ok ())
  have h2 := (metrics_failure_handling Unit Unit "user-1" c5_trip_data
    (Except.ok ()) c5_gen (fun i => toString i) "trip-1" 0).2.1
    (fanout_successes
      (fanout_results (prepare_travelers c5_trip_data (fun i => toString i))
        c5_gen))
    "insert failed" rfl (Except.ok ()) (Except.ok ())
  obtain ⟨trip, hres, -, -⟩ := h3
  exact ⟨hres, h2.1⟩

end Alpaca
